import Mathlib

/-!
Verification development for a SOCKS5 proxy scanner (`continous.py`).

The program probes SOCKS5 proxies (class `SOCKS5Checker`), keeps a TTL
cache of probe results (`load_cache`, `is_cache_valid`, `clear_old_cache`),
maintains a bounded latency-ranked list (`update_top_proxies`), samples
bandwidth for the best candidates (`single_bandwidth_test`,
`run_bandwidth_tests`), and orchestrates a full scan (`scan_proxies`).

The embedding below translates those functions into pure Lean functions.
Network and clock effects are made explicit as environment records: each
socket operation's outcome (success with data, or the message of the raised
exception) is a field of the environment, and wall-clock readings are
rational parameters.  Latencies, timestamps and bandwidths are modelled as
rationals (Python floats carry no overflow semantics relevant here).
-/

/-- A probe result dictionary, as built by `SOCKS5Checker.check` and then
extended with extra keys (`timestamp` when stored in the cache,
`last_updated` by `update_top_proxies`, `bandwidth_mbps` and `tests` by
`run_bandwidth_tests`).  Absent keys are `none`. -/
structure PResult where
  proxy : String
  latency : ℚ
  error : Option String
  timestamp : Option ℚ
  last_updated : Option ℚ
  bandwidth_mbps : Option ℚ
  tests : Option (List ℚ)
deriving DecidableEq, Repr

/-- A fresh result dictionary as initialised at the top of `check`:
`{'proxy': ..., 'latency': 9999, 'error': None}`. -/
def PResult.fresh (proxy : String) : PResult :=
  { proxy := proxy, latency := 9999, error := none,
    timestamp := none, last_updated := none,
    bandwidth_mbps := none, tests := none }

/-- Environment of one `SOCKS5Checker.check` call: the outcome of each
socket operation in program order.  `Except.error msg` models the operation
raising an exception whose `str` is `msg`; `Except.ok` models success.
`recv` results carry the bytes actually returned (byte values as naturals),
which may be fewer than requested (short read).  `elapsedMs` is
`(time.perf_counter() - start) * 1000` at the success point; `perf_counter`
is monotone, so a nonnegative value models any real execution. -/
structure CheckEnv where
  connect : Except String Unit
  sendGreeting : Except String Unit
  recvHandshake : Except String (List Nat)
  idnaEncode : Except String (List Nat)
  sendRequest : Except String Unit
  recvReply : Except String (List Nat)
  elapsedMs : ℚ

/-- The `try` body of `check`, lines 26-39: connect, send the
version/method-selection message, check the 2-byte reply against
`b'\x05\x00'`, IDNA-encode the target host, send the CONNECT request,
read the 4-byte reply and check its second byte (`response[1]`).
Returns the measured latency, or the message of the raised exception
(`ValueError("Invalid handshake")`, `ValueError(f"[WRN] Connect failed: {code}")`,
or `IndexError` — whose `str` is "index out of range" — when the reply is
shorter than 2 bytes). -/
def checkTryBody (env : CheckEnv) : Except String ℚ :=
  match env.connect with
  | Except.error e => Except.error e
  | Except.ok _ =>
    match env.sendGreeting with
    | Except.error e => Except.error e
    | Except.ok _ =>
      match env.recvHandshake with
      | Except.error e => Except.error e
      | Except.ok hs =>
        if hs ≠ [0x05, 0x00] then Except.error "Invalid handshake"
        else
          match env.idnaEncode with
          | Except.error e => Except.error e
          | Except.ok _ =>
            match env.sendRequest with
            | Except.error e => Except.error e
            | Except.ok _ =>
              match env.recvReply with
              | Except.error e => Except.error e
              | Except.ok resp =>
                match resp.get? 1 with
                | none => Except.error "index out of range"
                | some code =>
                  if code ≠ 0x00 then
                    Except.error ("[WRN] Connect failed: " ++ toString code)
                  else Except.ok env.elapsedMs

/-- Outcome of one `check` call: the returned dictionary, whether a socket
was opened (`self.sock` assigned by `create_connection`), and whether the
`finally` block closed it (`if self.sock: self.sock.close()`). -/
structure CheckOutcome where
  result : PResult
  sockOpened : Bool
  sockClosed : Bool
deriving Repr

/-- `SOCKS5Checker.check` (lines 23-45).  The `except Exception` clause
stores the exception message in `result['error']`; the `finally` clause
closes the socket exactly when `self.sock` was assigned, i.e. when
`create_connection` returned. -/
def check (proxyHost : String) (proxyPort : Nat) (env : CheckEnv) : CheckOutcome :=
  let base := PResult.fresh (proxyHost ++ ":" ++ toString proxyPort)
  let result :=
    match checkTryBody env with
    | Except.ok lat => { base with latency := lat }
    | Except.error e => { base with error := some e }
  let opened := env.connect.isOk
  { result := result, sockOpened := opened, sockClosed := opened }

/-- Exactly-one alternative (a) of the probe-result invariant: an error is
recorded and the latency is the sentinel. -/
def resultFailed (r : PResult) : Prop := r.error ≠ none ∧ r.latency = 9999

/-- Exactly-one alternative (b) of the probe-result invariant: no error and
a nonnegative measured latency. -/
def resultSucceeded (r : PResult) : Prop := r.error = none ∧ 0 ≤ r.latency

/-- C1: every completed `check` call returns a result satisfying exactly one
of: (a) `error` set and `latency = 9999`, or (b) `error = None` and
`latency >= 0`.  The hypothesis `0 ≤ env.elapsedMs` records that
`time.perf_counter()` is monotone, so the measured elapsed time is
nonnegative. -/
theorem C1_check_result_invariant (ph : String) (pp : Nat) (env : CheckEnv)
    (hclock : 0 ≤ env.elapsedMs) :
    (resultFailed (check ph pp env).result ∨ resultSucceeded (check ph pp env).result)
    ∧ ¬(resultFailed (check ph pp env).result ∧ resultSucceeded (check ph pp env).result) := by
  cases h : checkTryBody env with
  | ok lat =>
    have hl : lat = env.elapsedMs := by
      unfold checkTryBody at h
      repeat' split at h
      all_goals simp_all
    constructor
    · right
      constructor
      · simp [check, h, PResult.fresh]
      · simp [check, h, PResult.fresh, hl, hclock]
    · rintro ⟨⟨he, -⟩, hok, -⟩
      exact he hok
  | error e =>
    constructor
    · left
      constructor
      · simp [check, h, PResult.fresh]
      · simp [check, h, PResult.fresh]
    · rintro ⟨⟨he, -⟩, hok, -⟩
      exact he hok

/-- Witness for C1 at a concrete environment: a successful probe with a
42 ms elapsed time. -/
theorem C1_check_result_invariant_witness :
    (0 : ℚ) ≤ (CheckEnv.mk (Except.ok ()) (Except.ok ()) (Except.ok [5, 0])
        (Except.ok [104]) (Except.ok ()) (Except.ok [5, 0, 0, 1]) 42).elapsedMs
    ∧ ((resultFailed (check "10.0.0.1" 1080 (CheckEnv.mk (Except.ok ()) (Except.ok ())
          (Except.ok [5, 0]) (Except.ok [104]) (Except.ok ()) (Except.ok [5, 0, 0, 1]) 42)).result
        ∨ resultSucceeded (check "10.0.0.1" 1080 (CheckEnv.mk (Except.ok ()) (Except.ok ())
          (Except.ok [5, 0]) (Except.ok [104]) (Except.ok ()) (Except.ok [5, 0, 0, 1]) 42)).result)
      ∧ ¬(resultFailed (check "10.0.0.1" 1080 (CheckEnv.mk (Except.ok ()) (Except.ok ())
          (Except.ok [5, 0]) (Except.ok [104]) (Except.ok ()) (Except.ok [5, 0, 0, 1]) 42)).result
        ∧ resultSucceeded (check "10.0.0.1" 1080 (CheckEnv.mk (Except.ok ()) (Except.ok ())
          (Except.ok [5, 0]) (Except.ok [104]) (Except.ok ()) (Except.ok [5, 0, 0, 1]) 42)).result)) :=
  ⟨by norm_num,
   C1_check_result_invariant "10.0.0.1" 1080 _ (by norm_num)⟩

/-- C3: when the connection and the greeting send succeed but the proxy's
reply to the version/method-selection message is anything other than the
exact two bytes `0x05 0x00` (a short read included), `check` returns
`error = "Invalid handshake"` and the sentinel latency 9999. -/
theorem C3_invalid_handshake (ph : String) (pp : Nat) (env : CheckEnv)
    (bs : List Nat)
    (hc : env.connect = Except.ok ())
    (hg : env.sendGreeting = Except.ok ())
    (hr : env.recvHandshake = Except.ok bs)
    (hbs : bs ≠ [0x05, 0x00]) :
    (check ph pp env).result.error = some "Invalid handshake"
    ∧ (check ph pp env).result.latency = 9999 := by
  have h : checkTryBody env = Except.error "Invalid handshake" := by
    unfold checkTryBody
    rw [hc, hg, hr]
    simp [hbs]
  constructor <;> simp [check, h, PResult.fresh]

/-- Witness for C3: the mock server of the spec scenario replies
`0x05 0x01` (handshake reject). -/
theorem C3_invalid_handshake_witness :
    ((CheckEnv.mk (Except.ok ()) (Except.ok ()) (Except.ok [5, 1])
        (Except.ok [104]) (Except.ok ()) (Except.ok [5, 0, 0, 1]) 42).connect = Except.ok ()
      ∧ [5, 1] ≠ [0x05, 0x00])
    ∧ (check "10.0.0.1" 1080 (CheckEnv.mk (Except.ok ()) (Except.ok ()) (Except.ok [5, 1])
        (Except.ok [104]) (Except.ok ()) (Except.ok [5, 0, 0, 1]) 42)).result.error
        = some "Invalid handshake"
    ∧ (check "10.0.0.1" 1080 (CheckEnv.mk (Except.ok ()) (Except.ok ()) (Except.ok [5, 1])
        (Except.ok [104]) (Except.ok ()) (Except.ok [5, 0, 0, 1]) 42)).result.latency = 9999 :=
  ⟨⟨rfl, by decide⟩,
   C3_invalid_handshake "10.0.0.1" 1080 _ [5, 1] rfl rfl rfl (by decide)⟩

/-- C4: when the handshake succeeds and the CONNECT reply carries a nonzero
reply code in its second byte, `check` returns an error message containing
that code (the exact f-string `[WRN] Connect failed: {code}`) and the
sentinel latency 9999. -/
theorem C4_connect_refused (ph : String) (pp : Nat) (env : CheckEnv)
    (host resp : List Nat) (code : Nat)
    (hc : env.connect = Except.ok ())
    (hg : env.sendGreeting = Except.ok ())
    (hr : env.recvHandshake = Except.ok [0x05, 0x00])
    (hi : env.idnaEncode = Except.ok host)
    (hs : env.sendRequest = Except.ok ())
    (hp : env.recvReply = Except.ok resp)
    (hcode : resp.get? 1 = some code)
    (hnz : code ≠ 0) :
    (check ph pp env).result.error = some ("[WRN] Connect failed: " ++ toString code)
    ∧ (check ph pp env).result.latency = 9999 := by
  have h : checkTryBody env = Except.error ("[WRN] Connect failed: " ++ toString code) := by
    unfold checkTryBody
    rw [hc, hg, hr]
    simp only [ne_eq, not_true_eq_false, reduceIte]
    rw [hi, hs, hp]
    rw [List.get?_eq_getElem?] at hcode
    simp [hcode, hnz]
  constructor <;> simp [check, h, PResult.fresh]

/-- Witness for C4: the proxy replies to CONNECT with reply code 5
(connection refused). -/
theorem C4_connect_refused_witness :
    (List.get? [5, 5, 0, 1] 1 = some 5 ∧ (5 : Nat) ≠ 0)
    ∧ (check "10.0.0.1" 1080 (CheckEnv.mk (Except.ok ()) (Except.ok ()) (Except.ok [5, 0])
        (Except.ok [104]) (Except.ok ()) (Except.ok [5, 5, 0, 1]) 42)).result.error
        = some ("[WRN] Connect failed: " ++ toString 5)
    ∧ (check "10.0.0.1" 1080 (CheckEnv.mk (Except.ok ()) (Except.ok ()) (Except.ok [5, 0])
        (Except.ok [104]) (Except.ok ()) (Except.ok [5, 5, 0, 1]) 42)).result.latency = 9999 :=
  ⟨⟨rfl, by decide⟩,
   C4_connect_refused "10.0.0.1" 1080 _ [104] [5, 5, 0, 1] 5
     rfl rfl rfl rfl rfl rfl rfl (by decide)⟩

/-- C5: on every exit path of `check` — success or any exception — a socket
connection that was opened is closed before the result is returned: the
`finally` block closes `self.sock` whenever it was assigned. -/
theorem C5_socket_always_closed (ph : String) (pp : Nat) (env : CheckEnv)
    (h : (check ph pp env).sockOpened = true) :
    (check ph pp env).sockClosed = true := by
  have : (check ph pp env).sockClosed = (check ph pp env).sockOpened := rfl
  rw [this, h]

/-- Witness for C5: an environment where the connect succeeds but the
handshake read times out; the socket is opened and closed. -/
theorem C5_socket_always_closed_witness :
    (check "10.0.0.1" 1080 (CheckEnv.mk (Except.ok ()) (Except.ok ())
        (Except.error "timed out") (Except.ok [104]) (Except.ok ())
        (Except.ok [5, 0, 0, 1]) 42)).sockOpened = true
    ∧ (check "10.0.0.1" 1080 (CheckEnv.mk (Except.ok ()) (Except.ok ())
        (Except.error "timed out") (Except.ok [104]) (Except.ok ())
        (Except.ok [5, 0, 0, 1]) 42)).sockClosed = true :=
  ⟨rfl, C5_socket_always_closed "10.0.0.1" 1080 _ rfl⟩

/-- State of a persisted JSON file: absent, present but unreadable (an OS
error on `open`/`read`), present but not parsable by `json.load`, or
successfully parsed contents. -/
inductive JsonFile (α : Type) where
  | missing : JsonFile α
  | unreadable : JsonFile α
  | unparsable : JsonFile α
  | parsed : α → JsonFile α
deriving DecidableEq, Repr

/-- The `open` + `json.load` step on an existing file: raises (models the
exception message) unless the file is readable and parsable. -/
def readJson {α : Type} : JsonFile α → Except String α
  | JsonFile.missing => Except.error "FileNotFoundError"
  | JsonFile.unreadable => Except.error "OSError"
  | JsonFile.unparsable => Except.error "JSONDecodeError"
  | JsonFile.parsed c => Except.ok c

/-- The proxy cache: a dict keyed by the composite string
`"{proxy}_{target_host}_{target_port}"`.  Python dict semantics (unique
keys, insertion order) are modelled by an association list. -/
def Cache : Type := List (String × PResult)

/-- `load_cache` (lines 170-178): if the file does not exist, return `{}`;
otherwise try to read and parse it, and on any exception return `{}`.
Totality of this function is the formal counterpart of "never raises". -/
def load_cache (file : JsonFile (List (String × PResult))) : List (String × PResult) :=
  match file with
  | JsonFile.missing => []
  | f =>
    match readJson f with
    | Except.ok c => c
    | Except.error _ => []

/-- `is_cache_valid` (lines 185-191): false when the entry has no
`'timestamp'` key, else true iff `now - cache_time < timedelta(minutes=maxAge)`.
Times are in minutes. -/
def is_cache_valid (entry : PResult) (now : ℚ) (maxAgeMinutes : ℚ) : Bool :=
  match entry.timestamp with
  | none => false
  | some t => decide (now - t < maxAgeMinutes)

/-- `clear_old_cache` (lines 193-204): rebuild the dict keeping exactly the
entries that have a `'timestamp'` key and whose age is under the limit. -/
def clear_old_cache (cache : List (String × PResult)) (now : ℚ) (maxAgeMinutes : ℚ) :
    List (String × PResult) :=
  cache.filter fun kv =>
    match kv.2.timestamp with
    | none => false
    | some t => decide (now - t < maxAgeMinutes)

/-- A cache entry with no `'timestamp'` key, as a corrupt or hand-edited
cache file can contain. -/
def entryNoTimestamp : PResult :=
  { proxy := "10.0.0.1:1080", latency := 50, error := none,
    timestamp := none, last_updated := none, bandwidth_mbps := none, tests := none }

/-- Counterexample to C6 as stated: `clear_old_cache` does not remove
*exactly* the entries whose age `now - stored timestamp` reaches the TTL —
an entry with no stored timestamp at all (so with no age reaching the TTL)
is removed too. -/
theorem C6_counterexample_no_timestamp_entry_removed :
    clear_old_cache [("10.0.0.1:1080_httpbin.org_80", entryNoTimestamp)] 0 15 = []
    ∧ entryNoTimestamp.timestamp = none :=
  ⟨rfl, rfl⟩

/-- A cache entry stamped at minute 10. -/
def entryAtMinute10 : PResult :=
  { proxy := "10.0.0.1:1080", latency := 50, error := none,
    timestamp := some 10, last_updated := none, bandwidth_mbps := none, tests := none }

/-- A cache entry stamped at minute 0. -/
def entryAtMinute0 : PResult :=
  { proxy := "10.0.0.2:1080", latency := 60, error := none,
    timestamp := some 0, last_updated := none, bandwidth_mbps := none, tests := none }

/-- C6 amended: `clear_old_cache` keeps exactly the entries that carry a
timestamp aged strictly under the TTL (so it removes the entries whose age
reaches the TTL *and* the entries with no stored timestamp); an entry whose
age reaches the TTL is never reported valid by `is_cache_valid`; and an
immediate second `clear_old_cache` at the same clock reading returns the
same mapping. -/
theorem C6_cache_expiry_amended (cache : List (String × PResult)) (now ttl : ℚ)
    (kv : String × PResult) (e : PResult) (t : ℚ)
    (het : e.timestamp = some t) (hold : ttl ≤ now - t) :
    (kv ∈ clear_old_cache cache now ttl ↔
      kv ∈ cache ∧ ∃ u, kv.2.timestamp = some u ∧ now - u < ttl)
    ∧ is_cache_valid e now ttl = false
    ∧ clear_old_cache (clear_old_cache cache now ttl) now ttl
        = clear_old_cache cache now ttl := by
  refine ⟨?_, ?_, ?_⟩
  · rw [clear_old_cache, List.mem_filter]
    constructor
    · rintro ⟨hmem, hp⟩
      refine ⟨hmem, ?_⟩
      cases hts : kv.2.timestamp with
      | none => rw [hts] at hp; exact absurd hp (by simp)
      | some u =>
        rw [hts] at hp
        exact ⟨u, rfl, of_decide_eq_true hp⟩
    · rintro ⟨hmem, u, hts, hlt⟩
      refine ⟨hmem, ?_⟩
      rw [hts]
      exact decide_eq_true hlt
  · rw [is_cache_valid, het]
    simp only [decide_eq_false_iff_not, not_lt]
    exact hold
  · apply List.filter_eq_self.mpr
    intro a ha
    exact (List.mem_filter.mp ha).2

/-- Witness for C6 amended at concrete inputs: at clock minute 20 with a
15-minute TTL, the entry stamped at minute 10 is kept, the entry stamped at
minute 0 is reported invalid, and a second purge changes nothing. -/
theorem C6_cache_expiry_amended_witness :
    ((("k", entryAtMinute10) ∈
        clear_old_cache [("k", entryAtMinute10)] 20 15 ↔
      ("k", entryAtMinute10) ∈ [("k", entryAtMinute10)]
        ∧ ∃ u, ("k", entryAtMinute10).2.timestamp = some u ∧ (20 : ℚ) - u < 15)
    ∧ is_cache_valid entryAtMinute0 20 15 = false
    ∧ clear_old_cache (clear_old_cache [("k", entryAtMinute10)] 20 15) 20 15
        = clear_old_cache [("k", entryAtMinute10)] 20 15) :=
  C6_cache_expiry_amended [("k", entryAtMinute10)] 20 15 ("k", entryAtMinute10)
    entryAtMinute0 0 rfl (by norm_num)

/-- C7: `load_cache` treats a missing, unreadable, or unparsable cache file
as an empty cache; being a total Lean function into the cache type, it
never raises. -/
theorem C7_load_cache_fail_open :
    load_cache JsonFile.missing = []
    ∧ load_cache JsonFile.unreadable = []
    ∧ load_cache JsonFile.unparsable = [] :=
  ⟨rfl, rfl, rfl⟩

/-- Outcome of one bandwidth round: either some exception was raised during
the request or transfer (the bare `except` path), or the transfer loop
finished having counted `totalBytes` bytes, with `time.time() - start_time`
equal to `elapsedRaw` seconds when the clock is read after the loop. -/
inductive RoundOutcome where
  | raised : RoundOutcome
  | transferred : Nat → ℚ → RoundOutcome
deriving DecidableEq, Repr

/-- `single_bandwidth_test` (lines 47-65): any exception yields `0.0`;
otherwise `elapsed = max(0.1, time.time() - start_time)` (the comment in the
source says "Prevent division by zero") and
`mbps = (total_bytes * 8) / (elapsed * 1000000)`. -/
def single_bandwidth_test : RoundOutcome → ℚ
  | RoundOutcome.raised => 0
  | RoundOutcome.transferred totalBytes elapsedRaw =>
      ((totalBytes : ℚ) * 8) / (max (1 / 10) elapsedRaw * 1000000)

/-- `run_bandwidth_tests` (lines 67-86): run 4 rounds (`for test_num in
range(4)`), collect the per-round speeds, and set `bandwidth_mbps` to
`statistics.mean(speeds)` = sum / count and `tests` to the round list.  The
`else` branch for an empty `speeds` list is kept although the loop always
produces 4 entries. -/
def run_bandwidth_tests (rounds : Fin 4 → RoundOutcome) (proxyData : PResult) : PResult :=
  let speeds := [single_bandwidth_test (rounds 0), single_bandwidth_test (rounds 1),
                 single_bandwidth_test (rounds 2), single_bandwidth_test (rounds 3)]
  if speeds ≠ [] then
    { proxyData with
      bandwidth_mbps := some (speeds.sum / (speeds.length : ℚ)),
      tests := some speeds }
  else
    { proxyData with bandwidth_mbps := some 0, tests := some [] }

/-- C8: `run_bandwidth_tests` sets `bandwidth_mbps` to the arithmetic mean
of exactly 4 per-round values; a round that raises contributes `0.0`; with
all 4 rounds raising the mean is `0.0`; and the per-round divisor
`max(0.1, elapsed) * 1000000` is never zero (the elapsed time is floored at
0.1 s), so no division error can occur. -/
theorem C8_bandwidth_mean_of_four (rounds : Fin 4 → RoundOutcome) (pd : PResult) :
    (run_bandwidth_tests rounds pd).bandwidth_mbps
      = some ((single_bandwidth_test (rounds 0) + single_bandwidth_test (rounds 1)
          + single_bandwidth_test (rounds 2) + single_bandwidth_test (rounds 3)) / 4)
    ∧ (∀ i : Fin 4, rounds i = RoundOutcome.raised → single_bandwidth_test (rounds i) = 0)
    ∧ ((∀ i : Fin 4, rounds i = RoundOutcome.raised) →
        (run_bandwidth_tests rounds pd).bandwidth_mbps = some 0)
    ∧ (∀ elapsedRaw : ℚ, max (1 / 10) elapsedRaw * 1000000 ≠ 0) := by
  refine ⟨?_, ?_, ?_, ?_⟩
  · simp [run_bandwidth_tests]
    ring_nf
  · intro i hi
    rw [hi, single_bandwidth_test]
  · intro hall
    simp [run_bandwidth_tests, hall 0, hall 1, hall 2, hall 3, single_bandwidth_test]
  · intro elapsedRaw
    have h1 : (0 : ℚ) < max (1 / 10) elapsedRaw :=
      lt_of_lt_of_le (by norm_num) (le_max_left _ _)
    exact mul_ne_zero (ne_of_gt h1) (by norm_num)

/-- Witness for C8: with all four rounds raising a transport error, the
reported bandwidth is exactly `0.0`. -/
theorem C8_bandwidth_mean_of_four_witness :
    (run_bandwidth_tests (fun _ => RoundOutcome.raised)
        (PResult.fresh "10.0.0.1:1080")).bandwidth_mbps = some 0 :=
  (C8_bandwidth_mean_of_four (fun _ => RoundOutcome.raised)
    (PResult.fresh "10.0.0.1:1080")).2.2.1 (fun _ => rfl)

/-- The comparison behind `top_proxies.sort(key=lambda x: x['latency'])`:
Python's `sort` is a stable mergesort on the key. -/
def latencyLe (a b : PResult) : Bool := decide (a.latency ≤ b.latency)

/-- Loading step of `update_top_proxies` (lines 209-217): a missing file
gives `[]`, and any exception while reading or parsing gives `[]`. -/
def loadTopProxies (file : JsonFile (List PResult)) : List PResult :=
  match file with
  | JsonFile.missing => []
  | f =>
    match readJson f with
    | Except.ok l => l
    | Except.error _ => []

/-- Merge of one eligible result into the current list (lines 222-233):
scan for the first entry with the same `'proxy'` value and replace it;
append when no entry matches. -/
def mergeOne (r : PResult) : List PResult → List PResult
  | [] => [r]
  | p :: rest => if p.proxy = r.proxy then r :: rest else p :: mergeOne r rest

/-- The merge loop of `update_top_proxies` (lines 220-233): results with
`latency <= 300` and `error is None` are merged in order; others are
skipped. -/
def mergeResults (top : List PResult) (newResults : List PResult) : List PResult :=
  newResults.foldl
    (fun acc r => if r.latency ≤ 300 ∧ r.error = none then mergeOne r acc else acc)
    top

/-- `update_top_proxies` (lines 207-247): load the existing list
(fail-open), merge eligible new results, sort ascending by latency,
truncate to `maxEntries` (50 at the call site), stamp every retained entry
with `last_updated = now`, and write the list back.  Returns the list as
saved. -/
def update_top_proxies (newResults : List PResult)
    (file : JsonFile (List PResult)) (now : ℚ) (maxEntries : Nat) : List PResult :=
  (((mergeResults (loadTopProxies file) newResults).mergeSort latencyLe).take
      maxEntries).map fun p => { p with last_updated := some now }

/-- Any proxy name present after `mergeOne` was already present or is the
merged result's. -/
theorem mem_map_proxy_mergeOne (r : PResult) (l : List PResult) (x : String)
    (hx : x ∈ (mergeOne r l).map PResult.proxy) :
    x = r.proxy ∨ x ∈ l.map PResult.proxy := by
  induction l with
  | nil => simpa [mergeOne] using hx
  | cons p rest ih =>
    rw [mergeOne] at hx
    by_cases hp : p.proxy = r.proxy
    · rw [if_pos hp, List.map_cons, List.mem_cons] at hx
      rcases hx with h1 | h2
      · left; exact h1
      · right; rw [List.map_cons, List.mem_cons]; right; exact h2
    · rw [if_neg hp, List.map_cons, List.mem_cons] at hx
      rcases hx with h1 | h2
      · right; rw [List.map_cons, List.mem_cons]; left; exact h1
      · rcases ih h2 with h3 | h4
        · left; exact h3
        · right; rw [List.map_cons, List.mem_cons]; right; exact h4

/-- `mergeOne` preserves address uniqueness: replacing in place keeps the
proxy column unchanged, and appending only happens when the proxy is
absent. -/
theorem nodup_map_proxy_mergeOne (r : PResult) (l : List PResult)
    (h : (l.map PResult.proxy).Nodup) :
    ((mergeOne r l).map PResult.proxy).Nodup := by
  induction l with
  | nil => simp [mergeOne]
  | cons p rest ih =>
    rw [List.map_cons, List.nodup_cons] at h
    rw [mergeOne]
    by_cases hp : p.proxy = r.proxy
    · rw [if_pos hp, List.map_cons, List.nodup_cons]
      exact ⟨by rw [← hp]; exact h.1, h.2⟩
    · rw [if_neg hp, List.map_cons, List.nodup_cons]
      refine ⟨?_, ih h.2⟩
      intro hmem
      rcases mem_map_proxy_mergeOne r rest p.proxy hmem with h1 | h2
      · exact hp h1
      · exact h.1 h2

/-- The merge loop preserves address uniqueness. -/
theorem nodup_map_proxy_mergeResults (top newResults : List PResult)
    (h : (top.map PResult.proxy).Nodup) :
    ((mergeResults top newResults).map PResult.proxy).Nodup := by
  induction newResults generalizing top with
  | nil => exact h
  | cons r rs ih =>
    rw [mergeResults, List.foldl_cons]
    by_cases hc : r.latency ≤ 300 ∧ r.error = none
    · rw [if_pos hc]
      exact ih (mergeOne r top) (nodup_map_proxy_mergeOne r top h)
    · rw [if_neg hc]
      exact ih top h

/-- An entry already ranked for the proxy at address `1.2.3.4:1080`. -/
def dupEntryFast : PResult :=
  { proxy := "1.2.3.4:1080", latency := 100, error := none,
    timestamp := none, last_updated := none, bandwidth_mbps := none, tests := none }

/-- A second pre-existing entry for the same address `1.2.3.4:1080`. -/
def dupEntrySlow : PResult :=
  { proxy := "1.2.3.4:1080", latency := 200, error := none,
    timestamp := none, last_updated := none, bandwidth_mbps := none, tests := none }

/-- Counterexample to C2 as stated: with a pre-existing ranking file that
already contains two entries for the same address, `update_top_proxies`
(here with an empty batch of new results) keeps both, so the stored list
does not contain at most one entry per proxy address. -/
theorem C2_counterexample_preexisting_duplicate :
    ¬ ((update_top_proxies [] (JsonFile.parsed [dupEntryFast, dupEntrySlow]) 0 50).map
        PResult.proxy).Nodup := by
  have hsort := List.mergeSort_perm [dupEntryFast, dupEntrySlow] latencyLe
  have htake : (List.mergeSort [dupEntryFast, dupEntrySlow] latencyLe).take 50
      = List.mergeSort [dupEntryFast, dupEntrySlow] latencyLe :=
    List.take_of_length_le (by rw [List.length_mergeSort]; norm_num)
  have hrew : (update_top_proxies [] (JsonFile.parsed [dupEntryFast, dupEntrySlow]) 0 50).map
        PResult.proxy
      = (List.mergeSort [dupEntryFast, dupEntrySlow] latencyLe).map PResult.proxy := by
    rw [update_top_proxies]
    rw [show mergeResults (loadTopProxies (JsonFile.parsed [dupEntryFast, dupEntrySlow])) []
        = [dupEntryFast, dupEntrySlow] from rfl]
    rw [htake, List.map_map]
    rfl
  rw [hrew]
  intro hnd
  have h2 := ((hsort.map PResult.proxy).nodup_iff).mp hnd
  simp [dupEntryFast, dupEntrySlow] at h2

/-- C2 amended: after `update_top_proxies` the stored list has at most
`maxEntries` entries and is sorted ascending by latency; and provided the
pre-existing parsed ranking list contains at most one entry per address
(as every list previously written by `update_top_proxies` itself does), the
stored list also contains at most one entry per address.  The unqualified
per-address uniqueness fails on hand-edited pre-existing files with
duplicate addresses — see the counterexample. -/
theorem C2_ranking_invariants (newResults : List PResult)
    (file : JsonFile (List PResult)) (now : ℚ) (maxEntries : Nat) :
    (update_top_proxies newResults file now maxEntries).length ≤ maxEntries
    ∧ (update_top_proxies newResults file now maxEntries).Pairwise
        (fun a b => a.latency ≤ b.latency)
    ∧ (((loadTopProxies file).map PResult.proxy).Nodup →
        ((update_top_proxies newResults file now maxEntries).map PResult.proxy).Nodup) := by
  refine ⟨?_, ?_, ?_⟩
  · rw [update_top_proxies, List.length_map, List.length_take]
    exact min_le_left _ _
  · have htrans : ∀ a b c : PResult, latencyLe a b → latencyLe b c → latencyLe a c := by
      intro a b c hab hbc
      rw [latencyLe, decide_eq_true_eq] at hab hbc ⊢
      exact le_trans hab hbc
    have htotal : ∀ a b : PResult, latencyLe a b || latencyLe b a := by
      intro a b
      rw [latencyLe, latencyLe]
      rcases le_total a.latency b.latency with h | h
      · simp [h]
      · simp [h]
    have hs := List.sorted_mergeSort htrans htotal
      (mergeResults (loadTopProxies file) newResults)
    have hs2 := List.Pairwise.sublist
      (List.take_sublist maxEntries
        ((mergeResults (loadTopProxies file) newResults).mergeSort latencyLe)) hs
    rw [update_top_proxies, List.pairwise_map]
    exact hs2.imp fun hab => by
      rw [latencyLe, decide_eq_true_eq] at hab
      exact hab
  · intro h
    have h1 := nodup_map_proxy_mergeResults (loadTopProxies file) newResults h
    have hperm := (List.mergeSort_perm (mergeResults (loadTopProxies file) newResults)
      latencyLe).map PResult.proxy
    have h2 : (((mergeResults (loadTopProxies file) newResults).mergeSort
        latencyLe).map PResult.proxy).Nodup := hperm.nodup_iff.mpr h1
    have h3 : ((((mergeResults (loadTopProxies file) newResults).mergeSort
        latencyLe).take maxEntries).map PResult.proxy).Nodup := by
      rw [List.map_take]
      exact List.Nodup.sublist (List.take_sublist _ _) h2
    rw [update_top_proxies, List.map_map]
    exact h3

/-- An eligible pre-existing ranked entry at 120 ms. -/
def rankedExisting : PResult :=
  { proxy := "5.6.7.8:1080", latency := 120, error := none,
    timestamp := none, last_updated := none, bandwidth_mbps := none, tests := none }

/-- An eligible fresh result at 80 ms for a new address. -/
def rankedIncoming : PResult :=
  { proxy := "9.9.9.9:1080", latency := 80, error := none,
    timestamp := none, last_updated := none, bandwidth_mbps := none, tests := none }

/-- Witness for C2 amended at a concrete input: one pre-existing entry, one
new eligible result, limit 50. -/
theorem C2_ranking_invariants_witness :
    (update_top_proxies [rankedIncoming] (JsonFile.parsed [rankedExisting]) 7 50).length ≤ 50
    ∧ (update_top_proxies [rankedIncoming] (JsonFile.parsed [rankedExisting]) 7 50).Pairwise
        (fun a b => a.latency ≤ b.latency)
    ∧ ((update_top_proxies [rankedIncoming] (JsonFile.parsed [rankedExisting]) 7 50).map
        PResult.proxy).Nodup :=
  ⟨(C2_ranking_invariants [rankedIncoming] (JsonFile.parsed [rankedExisting]) 7 50).1,
   (C2_ranking_invariants [rankedIncoming] (JsonFile.parsed [rankedExisting]) 7 50).2.1,
   (C2_ranking_invariants [rankedIncoming] (JsonFile.parsed [rankedExisting]) 7 50).2.2
     (by decide)⟩

/-- C10: a missing, unreadable, or unparsable ranking file is treated by
`update_top_proxies` as an empty list, and the update proceeds exactly as
it would from an empty parsed list, rebuilding the ranking from the new
results alone; totality of `update_top_proxies` is the formal counterpart
of "proceeds without raising". -/
theorem C10_ranking_file_fail_open (newResults : List PResult) (now : ℚ)
    (maxEntries : Nat) :
    loadTopProxies JsonFile.missing = ([] : List PResult)
    ∧ loadTopProxies JsonFile.unreadable = ([] : List PResult)
    ∧ loadTopProxies JsonFile.unparsable = ([] : List PResult)
    ∧ update_top_proxies newResults JsonFile.missing now maxEntries
        = update_top_proxies newResults (JsonFile.parsed []) now maxEntries
    ∧ update_top_proxies newResults JsonFile.unreadable now maxEntries
        = update_top_proxies newResults (JsonFile.parsed []) now maxEntries
    ∧ update_top_proxies newResults JsonFile.unparsable now maxEntries
        = update_top_proxies newResults (JsonFile.parsed []) now maxEntries :=
  ⟨rfl, rfl, rfl, rfl, rfl, rfl⟩

/-- Python dict assignment `d[key] = v` on an insertion-ordered association
list: overwrite in place when the key exists, else append. -/
def dictSet (k : String) (v : PResult) : List (String × PResult) → List (String × PResult)
  | [] => [(k, v)]
  | kv :: rest => if kv.1 = k then (k, v) :: rest else kv :: dictSet k v rest

/-- Python `key in d` plus `d[key]` on an association list. -/
def dictGet (k : String) (d : List (String × PResult)) : Option PResult :=
  (d.find? fun kv => kv.1 == k).map fun kv => kv.2

/-- The composite cache key `f"{proxy}_{target_host}_{target_port}"`
(lines 275, 293). -/
def cacheKey (proxy targetHost : String) (targetPort : Nat) : String :=
  proxy ++ "_" ++ targetHost ++ "_" ++ toString targetPort

/-- The persisted artifacts `scan_proxies` can touch: the cache file
`./etc/proxy_cache.json`, the ranking file `top50_best_json.txt`, the raw
candidate dump `all_socks5_untested.txt`, and the bandwidth report
`top10_socks5.txt` (modelled by the entries it would list). -/
structure ScanFiles where
  cacheFile : JsonFile (List (String × PResult))
  rankingFile : JsonFile (List PResult)
  untestedFile : Option (List String)
  top10File : Option (List PResult)
deriving Repr

/-- Environment of one `scan_proxies` cycle: the clock reading, the
candidate list produced by `fetch_all_proxies` (`none` models the path
where it caught an exception and returned `[]` without writing the dump
file), the live probe results in the order `as_completed` yields them, and
the per-proxy bandwidth-round outcomes. -/
structure ScanEnv where
  now : ℚ
  fetchOutcome : Option (List String)
  probed : List PResult
  rounds : String → Fin 4 → RoundOutcome

/-- The cache-consultation loop (lines 274-284): a cached entry that is
present and valid is used — appended to `good_proxies` when error-free and
within the 800 ms filter, otherwise dropped; candidates with an absent or
expired entry go to `proxies_to_test`. -/
def consultCache (cache : List (String × PResult)) (now : ℚ) (plist : List String)
    (maxLatency : ℚ) (targetHost : String) (targetPort : Nat) :
    List PResult × List String :=
  plist.foldl
    (fun acc proxy =>
      match dictGet (cacheKey proxy targetHost targetPort) cache with
      | some entry =>
        if is_cache_valid entry now 15 then
          if entry.error = none ∧ entry.latency ≤ maxLatency then
            (acc.1 ++ [entry], acc.2)
          else acc
        else (acc.1, acc.2 ++ [proxy])
      | none => (acc.1, acc.2 ++ [proxy]))
    ([], [])

/-- Processing of one completed live probe (lines 291-301): stamp the
result with the current time, store it in the cache under its composite key
regardless of outcome, and collect it as good when error-free and within
the 800 ms filter. -/
def mergeProbe (now : ℚ) (targetHost : String) (targetPort : Nat) (maxLatency : ℚ)
    (acc : List (String × PResult) × List PResult) (r : PResult) :
    List (String × PResult) × List PResult :=
  let stamped := { r with timestamp := some now }
  let cache2 := dictSet (cacheKey r.proxy targetHost targetPort) stamped acc.1
  if stamped.error = none ∧ stamped.latency ≤ maxLatency then
    (cache2, acc.2 ++ [stamped])
  else (cache2, acc.2)

/-- Descending comparison on `bandwidth_mbps` used by
`bandwidth_results.sort(key=..., reverse=True)` (line 324). -/
def bandwidthGe (a b : PResult) : Bool :=
  decide (b.bandwidth_mbps.getD 0 ≤ a.bandwidth_mbps.getD 0)

/-- Body of `scan_proxies` past the empty-candidate early return
(lines 264-342): purge and consult the cache, probe the misses, save the
cache, update the top-50 ranking, and bandwidth-test the 10 fastest good
proxies. -/
def scanRest (env : ScanEnv) (fs : ScanFiles) (plist : List String) : ScanFiles :=
  let cache0 := clear_old_cache (load_cache fs.cacheFile) env.now 15
  let pair1 := consultCache cache0 env.now plist 800 "httpbin.org" 80
  let pair2 :=
    if pair1.2 = [] then (cache0, pair1.1)
    else env.probed.foldl (mergeProbe env.now "httpbin.org" 80 800) (cache0, pair1.1)
  let fs2 := { fs with cacheFile := JsonFile.parsed pair2.1 }
  let top := pair2.2.filter fun p => decide (p.latency ≤ 300)
  let ranked := update_top_proxies top fs2.rankingFile env.now 50
  let fs3 := { fs2 with rankingFile := JsonFile.parsed ranked }
  if top = [] then fs3
  else
    let top10 := (top.mergeSort latencyLe).take 10
    let bwResults :=
      (top10.map fun pd => run_bandwidth_tests (env.rounds pd.proxy) pd).mergeSort bandwidthGe
    { fs3 with top10File := some bwResults }

/-- `scan_proxies` (lines 249-344): fetch candidates; when the list is
empty, warn and return before any file is saved; otherwise run the rest of
the cycle.  A successful fetch has already written the raw candidate dump
(`all_socks5_untested.txt`, line 161). -/
def scan_proxies (env : ScanEnv) (fs : ScanFiles) : ScanFiles :=
  match env.fetchOutcome with
  | none => fs
  | some plist =>
    let fs1 := { fs with untestedFile := some plist }
    if plist = [] then fs1 else scanRest env fs1 plist

/-- C9: a cycle whose candidate fetch yields no candidates — whether
`fetch_all_proxies` caught an exception or simply produced an empty list —
returns early and leaves both the persisted cache file and the persisted
ranking file exactly as they were. -/
theorem C9_failed_fetch_preserves_stores (env : ScanEnv) (fs : ScanFiles)
    (h : env.fetchOutcome = none ∨ env.fetchOutcome = some []) :
    (scan_proxies env fs).cacheFile = fs.cacheFile
    ∧ (scan_proxies env fs).rankingFile = fs.rankingFile := by
  rcases h with h | h
  · rw [scan_proxies, h]
    exact ⟨rfl, rfl⟩
  · rw [scan_proxies, h]
    exact ⟨rfl, rfl⟩

/-- A scan environment whose fetch step failed. -/
def envFetchFailed : ScanEnv :=
  { now := 0, fetchOutcome := none, probed := [], rounds := fun _ _ => RoundOutcome.raised }

/-- A file state holding a previously written ranking. -/
def filesWithRanking : ScanFiles :=
  { cacheFile := JsonFile.parsed [("1.2.3.4:1080_httpbin.org_80", entryAtMinute10)],
    rankingFile := JsonFile.parsed [dupEntryFast],
    untestedFile := none, top10File := none }

/-- Witness for C9: a concrete failed fetch leaves the concrete stores
untouched. -/
theorem C9_failed_fetch_preserves_stores_witness :
    (envFetchFailed.fetchOutcome = none ∨ envFetchFailed.fetchOutcome = some [])
    ∧ (scan_proxies envFetchFailed filesWithRanking).cacheFile = filesWithRanking.cacheFile
    ∧ (scan_proxies envFetchFailed filesWithRanking).rankingFile
        = filesWithRanking.rankingFile :=
  ⟨Or.inl rfl, C9_failed_fetch_preserves_stores envFetchFailed filesWithRanking (Or.inl rfl)⟩
